import Mathlib

/-!
Shallow embedding of the `cdk-s3-distribution-template` repository.

The repository declares a static-website hosting topology with the AWS CDK:
an S3 bucket origin, a Route53 hosted-zone lookup, a DNS-validated ACM
certificate, a CloudFront web distribution fronted by an origin access
identity, and two CloudWatch alarms on error rates of the distribution.
Every construct call `new X(this, id, props)` registers one resource
declaration in the construct tree of the stack; we model the tree as the list of
declarations in registration order, and each builder method of
`DistributionStack` (file `lib/cdk-s3-distribution-stack.ts`) as a function
returning the declarations it registers together with the handle it returns.
-/

namespace CdkS3

/-- `ViewerProtocolPolicy` enum of `@aws-cdk/aws-cloudfront`. -/
inductive ViewerProtocolPolicy
  | httpsOnly
  | redirectToHTTPS
  | allowAll
deriving Repr, DecidableEq

/-- `HttpVersion` enum of `@aws-cdk/aws-cloudfront`. -/
inductive HttpVersion
  | http1_1
  | http2
deriving Repr, DecidableEq

/-- `PriceClass` enum of `@aws-cdk/aws-cloudfront`. -/
inductive PriceClass
  | priceClass100
  | priceClass200
  | priceClassAll
deriving Repr, DecidableEq

/-- `SecurityPolicyProtocol` enum of `@aws-cdk/aws-cloudfront`. -/
inductive SecurityPolicyProtocol
  | sslV3
  | tlsV1
  | tlsV1_2016
  | tlsV1_1_2016
  | tlsV1_2_2018
deriving Repr, DecidableEq

/-- `SSLMethod` enum of `@aws-cdk/aws-cloudfront`. -/
inductive SSLMethod
  | sni
  | vip
deriving Repr, DecidableEq

/-- `CloudFrontAllowedMethods` enum of `@aws-cdk/aws-cloudfront`. -/
inductive CloudFrontAllowedMethods
  | GET_HEAD
  | GET_HEAD_OPTIONS
  | ALL
deriving Repr, DecidableEq

/-- The set of HTTP methods each `CloudFrontAllowedMethods` value stands for,
per the CloudFront documentation of the enum. -/
def CloudFrontAllowedMethods.methods : CloudFrontAllowedMethods → List String
  | .GET_HEAD => ["GET", "HEAD"]
  | .GET_HEAD_OPTIONS => ["GET", "HEAD", "OPTIONS"]
  | .ALL => ["DELETE", "GET", "HEAD", "OPTIONS", "PATCH", "POST", "PUT"]

/-- `ComparisonOperator` enum of `@aws-cdk/aws-cloudwatch`. -/
inductive ComparisonOperator
  | greaterThanOrEqualToThreshold
  | greaterThanThreshold
  | lessThanThreshold
  | lessThanOrEqualToThreshold
deriving Repr, DecidableEq

/-- `TreatMissingData` enum of `@aws-cdk/aws-cloudwatch`. -/
inductive TreatMissingData
  | breaching
  | notBreaching
  | ignore
  | missing
deriving Repr, DecidableEq

/-- CloudWatch missing-data semantics: a policy treats absent datapoints as
non-breaching when missing data alone never drives the alarm into the fail
state. Under `breaching`, missing datapoints count as over threshold; under
`notBreaching` they count as within threshold, and under `ignore` and
`missing` the alarm does not transition on missing data, so none of those
three can breach on missing data alone. -/
def TreatMissingData.nonBreachingOnMissing : TreatMissingData → Bool
  | .breaching => false
  | _ => true

/-- `Unit` enum of `@aws-cdk/aws-cloudwatch` (renamed: `Unit` is taken in Lean). -/
inductive MetricUnit
  | COUNT
  | PERCENT
  | SECONDS
deriving Repr, DecidableEq

/-- Props of `new Bucket(this, "AppBucket", { bucketName })`. -/
structure BucketProps where
  bucketName : String
deriving Repr, DecidableEq

/-- Query of `HostedZone.fromLookup(this, "HostedZone", { domainName, privateZone })`. -/
structure HostedZoneLookupProps where
  domainName : String
  privateZone : Bool
deriving Repr, DecidableEq

/-- Props of `new DnsValidatedCertificate(this, "DistributionCertificate", ...)`.
The `DnsValidatedCertificateProps` interface also accepts an optional `region`
for the region that hosts the certificate; the source passes only
`{ domainName, hostedZone }`, leaving `region` unset. -/
structure CertificateProps where
  domainName : String
  hostedZone : HostedZoneLookupProps
  region : Option String
deriving Repr, DecidableEq

/-- The ARN token `certificate.certificateArn` of a declared certificate,
modelled as a reference to the declaration it resolves to. -/
structure CertificateArn where
  certificate : CertificateProps
deriving Repr, DecidableEq

/-- The `cookies` entry of the `forwardedValues` of a behavior. -/
structure CookiesConfig where
  forward : String
deriving Repr, DecidableEq

/-- The `forwardedValues` entry of a behavior. -/
structure ForwardedValues where
  queryString : Bool
  cookies : CookiesConfig
deriving Repr, DecidableEq

/-- One entry of the `behaviors` array of a source configuration. -/
structure Behavior where
  allowedMethods : CloudFrontAllowedMethods
  compress : Bool
  forwardedValues : ForwardedValues
  isDefaultBehavior : Bool
deriving Repr, DecidableEq

/-- The `s3OriginSource` of a source configuration; `originAccessIdentity`
holds the construct id of the origin access identity it references. -/
structure S3OriginSource where
  originAccessIdentity : String
  s3BucketSource : BucketProps
deriving Repr, DecidableEq

/-- One entry of the `originConfigs` array of the distribution. -/
structure SourceConfiguration where
  s3OriginSource : S3OriginSource
  behaviors : List Behavior
deriving Repr, DecidableEq

/-- One entry of the `errorConfigurations` array of the distribution. -/
structure ErrorConfiguration where
  errorCode : Nat
  responseCode : Nat
  responsePagePath : String
deriving Repr, DecidableEq

/-- The `aliasConfiguration` of the distribution. -/
structure AliasConfiguration where
  acmCertRef : CertificateArn
  names : List String
  securityPolicy : SecurityPolicyProtocol
  sslMethod : SSLMethod
deriving Repr, DecidableEq

/-- Props of `new CloudFrontWebDistribution(this, "AppDistribution", ...)`. -/
structure DistributionProps where
  comment : String
  viewerProtocolPolicy : ViewerProtocolPolicy
  httpVersion : HttpVersion
  defaultRootObject : String
  priceClass : PriceClass
  aliasConfiguration : AliasConfiguration
  errorConfigurations : List ErrorConfiguration
  originConfigs : List SourceConfiguration
deriving Repr, DecidableEq

/-- The metric dimension map used by `buildAlarms`; `DistributionId` holds the
late-bound token `cloudFrontDistribution.distributionId`, modelled as a
reference to the distribution declaration it resolves to. -/
structure MetricDimensions where
  Region : String
  DistributionId : DistributionProps
deriving Repr, DecidableEq

/-- Props of `new Metric(...)` in `buildAlarms`. `namespace` is a Lean keyword,
hence the field name `metricNamespace`; `periodSeconds` carries the value of
`Duration.seconds(...)`. -/
structure MetricProps where
  metricName : String
  metricNamespace : String
  periodSeconds : Nat
  statistic : String
  unit : MetricUnit
  dimensions : MetricDimensions
deriving Repr, DecidableEq

/-- Props of `new Alarm(this, ..., ...)` in `buildAlarms`. -/
structure AlarmProps where
  alarmDescription : String
  alarmName : String
  comparisonOperator : ComparisonOperator
  evaluationPeriods : Nat
  metric : MetricProps
  threshold : Nat
  treatMissingData : TreatMissingData
deriving Repr, DecidableEq

/-- One resource declaration registered in the construct tree of the stack, tagged
with its construct id. -/
inductive Resource
  | bucket (id : String) (props : BucketProps)
  | hostedZone (id : String) (props : HostedZoneLookupProps)
  | certificate (id : String) (props : CertificateProps)
  | originAccessIdentity (id : String)
  | distribution (id : String) (props : DistributionProps)
  | alarm (id : String) (props : AlarmProps)
deriving Repr, DecidableEq

/-- The kind of a resource declaration, for counting and ordering claims. -/
inductive ResourceKind
  | bucket
  | hostedZone
  | certificate
  | originAccessIdentity
  | distribution
  | alarm
deriving Repr, DecidableEq, BEq

/-- Kind of a declaration. -/
def Resource.kind : Resource → ResourceKind
  | .bucket _ _ => .bucket
  | .hostedZone _ _ => .hostedZone
  | .certificate _ _ => .certificate
  | .originAccessIdentity _ => .originAccessIdentity
  | .distribution _ _ => .distribution
  | .alarm _ _ => .alarm

/-- Construct id of a declaration. -/
def Resource.constructId : Resource → String
  | .bucket id _ => id
  | .hostedZone id _ => id
  | .certificate id _ => id
  | .originAccessIdentity id => id
  | .distribution id _ => id
  | .alarm id _ => id

/-- Number of declarations of a given kind in a construct tree. -/
def countKind (k : ResourceKind) (rs : List Resource) : Nat :=
  rs.countP (fun r => r.kind == k)

/-- The alarm declarations of a construct tree, in order. -/
def alarmsOf (rs : List Resource) : List AlarmProps :=
  rs.filterMap (fun r => match r with
    | .alarm _ p => some p
    | _ => none)

/-- `lookupHostedZone(domainName, privateZone = false)`: registers the
`HostedZone.fromLookup` reference and returns it. The TS default for
`privateZone` is `false`; callers of the Lean model pass it explicitly. -/
def lookupHostedZone (domainName : String) (privateZone : Bool) :
    List Resource × HostedZoneLookupProps :=
  let props : HostedZoneLookupProps :=
    { domainName := domainName, privateZone := privateZone }
  ([Resource.hostedZone "HostedZone" props], props)

/-- `buildAppBucket(bucketName)`: registers the bucket and returns it. -/
def buildAppBucket (bucketName : String) : List Resource × BucketProps :=
  let props : BucketProps := { bucketName := bucketName }
  ([Resource.bucket "AppBucket" props], props)

/-- `buildDistributionCertificate(domainName, hostedZone)`: registers the
DNS-validated certificate and returns it. The source passes no `region`. -/
def buildDistributionCertificate (domainName : String)
    (hostedZone : HostedZoneLookupProps) :
    List Resource × CertificateProps :=
  let props : CertificateProps :=
    { domainName := domainName, hostedZone := hostedZone, region := none }
  ([Resource.certificate "DistributionCertificate" props], props)

/-- The region a `DnsValidatedCertificate` is hosted in: its `region` prop
when given, otherwise (per the documented default of the construct) the region the
stack is deployed in. -/
def certificateEffectiveRegion (c : CertificateProps) (stackRegion : String) :
    String :=
  c.region.getD stackRegion

/-- `buildCloudFrontDistribution(bucketSource, domainName, certificate)`:
registers the origin access identity `AppDistributionOAI`, then the
distribution `AppDistribution`, and returns the distribution. -/
def buildCloudFrontDistribution (bucketSource : BucketProps)
    (domainName : String) (certificate : CertificateProps) :
    List Resource × DistributionProps :=
  let oaiId : String := "AppDistributionOAI"
  let distribution : DistributionProps :=
    { comment := "App Distribution"
      viewerProtocolPolicy := ViewerProtocolPolicy.redirectToHTTPS
      httpVersion := HttpVersion.http2
      defaultRootObject := "index.html"
      priceClass := PriceClass.priceClass100
      aliasConfiguration :=
        { acmCertRef := { certificate := certificate }
          names := [domainName]
          securityPolicy := SecurityPolicyProtocol.tlsV1_2_2018
          sslMethod := SSLMethod.sni }
      errorConfigurations :=
        [{ errorCode := 404, responseCode := 200,
           responsePagePath := "/index.html" }]
      originConfigs :=
        [{ s3OriginSource :=
             { originAccessIdentity := oaiId, s3BucketSource := bucketSource }
           behaviors :=
             [{ allowedMethods := CloudFrontAllowedMethods.GET_HEAD
                compress := true
                forwardedValues :=
                  { queryString := false, cookies := { forward := "none" } }
                isDefaultBehavior := false }] }] }
  ([Resource.originAccessIdentity oaiId,
    Resource.distribution "AppDistribution" distribution], distribution)

/-- `buildAlarms(cloudFrontDistribution)`: registers the 4xx-rate alarm
`ClientHttpErrorAlarm` and then the 5xx-rate alarm `ServerHttpErrorAlarm`. -/
def buildAlarms (cloudFrontDistribution : DistributionProps) : List Resource :=
  let clientHttpErrorMetric : MetricProps :=
    { metricName := "4xxErrorRate"
      metricNamespace := "AWS/CloudFront"
      periodSeconds := 3600
      statistic := "Average"
      unit := MetricUnit.COUNT
      dimensions :=
        { Region := "Global", DistributionId := cloudFrontDistribution } }
  let serverHttpErrorMetric : MetricProps :=
    { metricName := "5xxErrorRate"
      metricNamespace := "AWS/CloudFront"
      periodSeconds := 3600
      statistic := "Average"
      unit := MetricUnit.COUNT
      dimensions :=
        { Region := "Global", DistributionId := cloudFrontDistribution } }
  [Resource.alarm "ClientHttpErrorAlarm"
    { alarmDescription := "CloudFront4XX Errors"
      alarmName := "CloudFront4XX"
      comparisonOperator := ComparisonOperator.greaterThanThreshold
      evaluationPeriods := 1
      metric := clientHttpErrorMetric
      threshold := 2
      treatMissingData := TreatMissingData.missing },
   Resource.alarm "ServerHttpErrorAlarm"
    { alarmDescription := "CloudFront5XX Errors"
      alarmName := "CloudFront5XX"
      comparisonOperator := ComparisonOperator.greaterThanThreshold
      evaluationPeriods := 1
      metric := serverHttpErrorMetric
      threshold := 1
      treatMissingData := TreatMissingData.missing }]

/-- The `{ bucketName, domainName }` props of `DistributionStack`. -/
structure DistributionStackProps where
  bucketName : String
  domainName : String
deriving Repr, DecidableEq

/-- The `DistributionStack` constructor: the construct tree it registers, in
registration order, following the straight-line call sequence from the source. -/
def DistributionStack.resources (props : DistributionStackProps) :
    List Resource :=
  let domainName := props.domainName
  let bucketName := props.bucketName
  let bucketStep := buildAppBucket bucketName
  let zoneStep := lookupHostedZone domainName false
  let certStep := buildDistributionCertificate domainName zoneStep.2
  let distStep := buildCloudFrontDistribution bucketStep.2 domainName certStep.2
  bucketStep.1 ++ zoneStep.1 ++ certStep.1 ++ distStep.1 ++
    buildAlarms distStep.2

/-- The distribution handle built by the constructor (the value of the local
`distribution` in the TS constructor). -/
def DistributionStack.distribution (props : DistributionStackProps) :
    DistributionProps :=
  (buildCloudFrontDistribution
    (buildAppBucket props.bucketName).2 props.domainName
    (buildDistributionCertificate props.domainName
      (lookupHostedZone props.domainName false).2).2).2

/-- The entry point `bin/distribution.ts` instantiates the stack with these
hard-coded inputs. -/
def entryPointProps : DistributionStackProps :=
  { bucketName := "my-unique-bucket-name", domainName := "mydomain.com" }

/-- Modelled from the spec: the test file `test/cdk-s3-distribution.test.ts`
instantiates `CdkS3DistributionStack` (imported from
`lib/cdk-s3-distribution-stack`) with no props and asserts an exactly empty
`Resources` template; that class is missing from the source files — only its
test is present. Per the spec, "An empty/default instantiation (no resources
requested) produces an empty resource graph", so its constructor registers no
resource declarations. -/
def emptyStackResources : List Resource := []

end CdkS3

open CdkS3

/-- Claim C1: the distribution produced by `buildCloudFrontDistribution` has
exactly one origin configuration with exactly one behavior — that part holds —
but the sole behavior is registered with `isDefaultBehavior: false`, so it is
not the default-root behavior of the distribution. Evaluated at the
entry-point inputs. -/
theorem buildCloudFrontDistribution_sole_behavior_is_not_default :
    ∃ oc b,
      (DistributionStack.distribution entryPointProps).originConfigs = [oc] ∧
      oc.behaviors = [b] ∧
      b.isDefaultBehavior = false :=
  ⟨_, _, rfl, rfl, rfl⟩

/-- Claim C2: `buildAlarms` registers exactly two alarms; the first watches the
4xx error rate with the greater-than operator, threshold 2 and one evaluation
period, the second watches the 5xx error rate with the greater-than operator,
threshold 1 and one evaluation period, and both use the `missing` missing-data
policy, which never breaches on missing data. -/
theorem buildAlarms_two_threshold_alarms (d : DistributionProps) :
    ∃ a4 a5, alarmsOf (buildAlarms d) = [a4, a5] ∧
      a4.metric.metricName = "4xxErrorRate" ∧
      a4.comparisonOperator = ComparisonOperator.greaterThanThreshold ∧
      a4.threshold = 2 ∧
      a4.evaluationPeriods = 1 ∧
      a4.treatMissingData = TreatMissingData.missing ∧
      a5.metric.metricName = "5xxErrorRate" ∧
      a5.comparisonOperator = ComparisonOperator.greaterThanThreshold ∧
      a5.threshold = 1 ∧
      a5.evaluationPeriods = 1 ∧
      a5.treatMissingData = TreatMissingData.missing ∧
      a4.treatMissingData.nonBreachingOnMissing = true ∧
      a5.treatMissingData.nonBreachingOnMissing = true :=
  ⟨_, _, rfl, rfl, rfl, rfl, rfl, rfl, rfl, rfl, rfl, rfl, rfl, rfl, rfl⟩

/-- Claim C3: for every bucket-name/domain-name input pair, the construct tree
built by the `DistributionStack` constructor contains exactly one bucket, one
hosted-zone reference, one certificate, one distribution, one origin access
identity and two alarms. -/
theorem distributionStack_resource_counts (p : DistributionStackProps) :
    countKind ResourceKind.bucket (DistributionStack.resources p) = 1 ∧
    countKind ResourceKind.hostedZone (DistributionStack.resources p) = 1 ∧
    countKind ResourceKind.certificate (DistributionStack.resources p) = 1 ∧
    countKind ResourceKind.distribution (DistributionStack.resources p) = 1 ∧
    countKind ResourceKind.originAccessIdentity
      (DistributionStack.resources p) = 1 ∧
    countKind ResourceKind.alarm (DistributionStack.resources p) = 2 :=
  ⟨rfl, rfl, rfl, rfl, rfl, rfl⟩

/-- Claim C4: for every input, the default root object of the distribution is
`index.html` and its error configuration is exactly the remap of HTTP status
404 to a 200 response served from `/index.html`. -/
theorem distribution_root_object_and_spa_remap (p : DistributionStackProps) :
    (DistributionStack.distribution p).defaultRootObject = "index.html" ∧
    (DistributionStack.distribution p).errorConfigurations =
      [{ errorCode := 404, responseCode := 200,
         responsePagePath := "/index.html" }] :=
  ⟨rfl, rfl⟩

/-- Claim C5: for every input, the viewer protocol policy of the distribution
redirects plain HTTP to HTTPS, and every declared behavior allows exactly the
GET and HEAD methods, enables compression, and forwards neither query strings
nor cookies. -/
theorem distribution_redirect_and_read_only_behaviors
    (p : DistributionStackProps) :
    (DistributionStack.distribution p).viewerProtocolPolicy =
      ViewerProtocolPolicy.redirectToHTTPS ∧
    ((DistributionStack.distribution p).originConfigs.all fun oc =>
      oc.behaviors.all fun b =>
        (b.allowedMethods.methods == ["GET", "HEAD"]) && b.compress &&
          !b.forwardedValues.queryString &&
          (b.forwardedValues.cookies.forward == "none")) = true :=
  ⟨rfl, rfl⟩

/-- Claim C6: for every domain name (and any hosted zone, bucket and stack
input), the certificate declared by `buildDistributionCertificate` carries
exactly that domain name, the alias name list of the distribution is exactly the
one-element list of that domain name, and the `acmCertRef` of the distribution
resolves to that very certificate. -/
theorem certificate_and_alias_use_input_domain (domainName : String)
    (hostedZone : HostedZoneLookupProps) (bucketSource : BucketProps) :
    (buildDistributionCertificate domainName hostedZone).2.domainName =
      domainName ∧
    (buildCloudFrontDistribution bucketSource domainName
        (buildDistributionCertificate domainName
          hostedZone).2).2.aliasConfiguration.names = [domainName] ∧
    (buildCloudFrontDistribution bucketSource domainName
        (buildDistributionCertificate domainName
          hostedZone).2).2.aliasConfiguration.acmCertRef.certificate =
      (buildDistributionCertificate domainName hostedZone).2 :=
  ⟨rfl, rfl, rfl⟩

/-- Claim C7: the source passes no `region` to the DNS-validated certificate,
so the certificate is hosted in the documented default of the construct — the
region of the stack itself — and is therefore NOT pinned to the required delivery-network
region `us-east-1` independent of the region of the stack: deployed in
`eu-west-2`, the certificate ends up in `eu-west-2`. Evaluated at the
entry-point domain name. -/
theorem certificate_region_follows_stack_region :
    (buildDistributionCertificate "mydomain.com"
      (lookupHostedZone "mydomain.com" false).2).2.region = none ∧
    certificateEffectiveRegion
      (buildDistributionCertificate "mydomain.com"
        (lookupHostedZone "mydomain.com" false).2).2 "eu-west-2" =
      "eu-west-2" ∧
    "eu-west-2" ≠ "us-east-1" :=
  ⟨rfl, rfl, by decide⟩

/-- Claim C8: the default instantiation of the stack exercised by the test
(modelled from the spec, since the class is absent from the sources) registers
no resources: its construct tree is empty and every resource kind counts
zero. -/
theorem emptyStack_produces_no_resources :
    emptyStackResources = [] ∧
    ∀ k, countKind k emptyStackResources = 0 :=
  ⟨rfl, fun _ => rfl⟩

/-- Claim C9: for every input, the `DistributionStack` constructor registers
exactly the straight-line sequence bucket, hosted-zone lookup, certificate,
origin access identity, distribution, 4xx alarm, 5xx alarm — in that order,
with no branching or repetition. -/
theorem distributionStack_straight_line_sequence (p : DistributionStackProps) :
    (DistributionStack.resources p).map Resource.kind =
      [ResourceKind.bucket, ResourceKind.hostedZone, ResourceKind.certificate,
       ResourceKind.originAccessIdentity, ResourceKind.distribution,
       ResourceKind.alarm, ResourceKind.alarm] ∧
    (DistributionStack.resources p).map Resource.constructId =
      ["AppBucket", "HostedZone", "DistributionCertificate",
       "AppDistributionOAI", "AppDistribution", "ClientHttpErrorAlarm",
       "ServerHttpErrorAlarm"] :=
  ⟨rfl, rfl⟩

/-- Claim C10: the topology definition is deterministic — two runs of the
`DistributionStack` constructor on equal bucket-name and domain-name inputs
register identical construct trees, attribute for attribute. -/
theorem distributionStack_deterministic (p q : DistributionStackProps)
    (hb : p.bucketName = q.bucketName) (hd : p.domainName = q.domainName) :
    DistributionStack.resources p = DistributionStack.resources q := by
  obtain ⟨pb, pd⟩ := p
  obtain ⟨qb, qd⟩ := q
  cases hb
  cases hd
  rfl

/-- Witness for claim C10 at the entry-point inputs. -/
theorem distributionStack_deterministic_witness :
    DistributionStack.resources entryPointProps =
      DistributionStack.resources
        { bucketName := "my-unique-bucket-name",
          domainName := "mydomain.com" } :=
  distributionStack_deterministic entryPointProps
    { bucketName := "my-unique-bucket-name", domainName := "mydomain.com" }
    rfl rfl
